import Mathlib

/-!
Shallow embedding of the simulation core of `pong_game.py` (a pygame Pong
game, player vs computer).  Coordinates, speeds, scores and lives are
modelled as `Int` (pygame rects store integers; Python ints are unbounded).
Randomness (`random.choice([-1, 1])`) is modelled by a `Bool` input per
draw site, mapped to a sign by `choiceSign`.  Event processing (the
external QUIT signal) and all rendering/asset code are outside the
simulation core and are not modelled.
-/

namespace Pong

/-- `SCREEN_WIDTH` constant of the source. -/
def SCREEN_WIDTH : Int := 800

/-- `SCREEN_HEIGHT` constant of the source. -/
def SCREEN_HEIGHT : Int := 600

/-- `PADDLE_WIDTH` constant of the source. -/
def PADDLE_WIDTH : Int := 20

/-- `PADDLE_HEIGHT` constant of the source. -/
def PADDLE_HEIGHT : Int := 100

/-- `BALL_SIZE` constant of the source. -/
def BALL_SIZE : Int := 20

/-- `PLAYER_SPEED` constant of the source. -/
def PLAYER_SPEED : Int := 7

/-- `COMP_SPEED` constant of the source. -/
def COMP_SPEED : Int := 6

/-- `STARTING_LIVES` constant of the source. -/
def STARTING_LIVES : Int := 3

/-- A pygame `Rect`: position `(x, y)` of the top-left corner plus size. -/
structure Rect where
  x : Int
  y : Int
  w : Int
  h : Int
deriving Repr, DecidableEq

/-- pygame `rect.left`. -/
def Rect.left (r : Rect) : Int := r.x

/-- pygame `rect.right`. -/
def Rect.right (r : Rect) : Int := r.x + r.w

/-- pygame `rect.top`. -/
def Rect.top (r : Rect) : Int := r.y

/-- pygame `rect.bottom`. -/
def Rect.bottom (r : Rect) : Int := r.y + r.h

/-- pygame `rect.centerx` (integer division, sizes here are even). -/
def Rect.centerx (r : Rect) : Int := r.x + r.w / 2

/-- pygame `rect.centery`. -/
def Rect.centery (r : Rect) : Int := r.y + r.h / 2

/-- pygame `Rect.colliderect`: true when the rectangles strictly overlap
(zero-sized rectangles never collide). -/
def Rect.colliderect (a b : Rect) : Prop :=
  a.w ≠ 0 ∧ a.h ≠ 0 ∧ b.w ≠ 0 ∧ b.h ≠ 0 ∧
  a.x < b.x + b.w ∧ a.y < b.y + b.h ∧ b.x < a.x + a.w ∧ b.y < a.y + a.h

instance (a b : Rect) : Decidable (a.colliderect b) := by
  unfold Rect.colliderect; infer_instance

/-- Sign produced by `random.choice([-1, 1])`, the draw modelled as a `Bool`. -/
def choiceSign (b : Bool) : Int := if b then 1 else -1

/-- `Paddle.update(dy)`: move vertically by `dy`, then clamp the rect so
`top ≥ 0` (by setting `rect.top = 0`) and `bottom ≤ SCREEN_HEIGHT`
(by setting `rect.bottom = SCREEN_HEIGHT`). -/
def Paddle.update (r : Rect) (dy : Int) : Rect :=
  let r1 : Rect := { r with y := r.y + dy }
  let r2 : Rect := if r1.top < 0 then { r1 with y := 0 } else r1
  if r2.bottom > SCREEN_HEIGHT then { r2 with y := SCREEN_HEIGHT - r2.h } else r2

/-- The `Ball` sprite: its rect plus `speed_x`, `speed_y`. -/
structure Ball where
  rect : Rect
  speed_x : Int
  speed_y : Int
deriving Repr, DecidableEq

/-- `Ball.reset()`: center the rect on the screen center (pygame sets
`x = centerx - w / 2`), and set each speed to `7 * dir` with each `dir`
drawn independently by `random.choice([-1, 1])`. -/
def Ball.reset (d_x d_y : Bool) : Ball :=
  { rect := { x := SCREEN_WIDTH / 2 - BALL_SIZE / 2
            , y := SCREEN_HEIGHT / 2 - BALL_SIZE / 2
            , w := BALL_SIZE, h := BALL_SIZE }
  , speed_x := 7 * choiceSign d_x
  , speed_y := 7 * choiceSign d_y }

/-- `Ball.update()`: advance the rect by the speed vector, then if
`top ≤ 0` or `bottom ≥ SCREEN_HEIGHT` negate `speed_y` (once, no
position correction). -/
def Ball.update (b : Ball) : Ball :=
  let r : Rect := { b.rect with x := b.rect.x + b.speed_x, y := b.rect.y + b.speed_y }
  if r.top ≤ 0 ∨ r.bottom ≥ SCREEN_HEIGHT then
    { rect := r, speed_x := b.speed_x, speed_y := -b.speed_y }
  else
    { rect := r, speed_x := b.speed_x, speed_y := b.speed_y }

/-- Main-loop player input: `dy = 0`, then `dy = -PLAYER_SPEED` if the up
key is held, then `dy = PLAYER_SPEED` if the down key is held (a held down
key overwrites the up key). -/
def playerDy (up down : Bool) : Int :=
  let dy : Int := 0
  let dy := if up then -PLAYER_SPEED else dy
  let dy := if down then PLAYER_SPEED else dy
  dy

/-- Main-loop computer AI: compare the ball's `centery` with the computer
paddle's `centery` and call `Paddle.update` with `-COMP_SPEED` / `COMP_SPEED`,
or do nothing when equal. -/
def compAI (ballRect comp : Rect) : Rect :=
  if ballRect.centery < comp.centery then Paddle.update comp (-COMP_SPEED)
  else if ballRect.centery > comp.centery then Paddle.update comp COMP_SPEED
  else comp

/-- Main-loop collision with the player paddle: if the ball rect collides
with the paddle rect and `speed_x < 0`, negate `speed_x` and add
`random.choice([-1, 1])` to `speed_y`. -/
def collidePlayer (b : Ball) (pr : Rect) (c : Bool) : Ball :=
  if b.rect.colliderect pr ∧ b.speed_x < 0 then
    { b with speed_x := -b.speed_x, speed_y := b.speed_y + choiceSign c }
  else b

/-- Main-loop collision with the computer paddle: same as the player case
but requires `speed_x > 0`. -/
def collideComp (b : Ball) (cr : Rect) (c : Bool) : Ball :=
  if b.rect.colliderect cr ∧ b.speed_x > 0 then
    { b with speed_x := -b.speed_x, speed_y := b.speed_y + choiceSign c }
  else b

/-- The whole game state mutated by the main loop. -/
structure GameState where
  player_paddle : Rect
  comp_paddle : Rect
  ball : Ball
  player_score : Int
  player_lives : Int
  comp_score : Int
  comp_lives : Int
  running : Bool
deriving Repr, DecidableEq

/-- The per-tick external inputs: the held keys and one `Bool` per
`random.choice([-1, 1])` call site of the loop body. -/
structure TickInput where
  key_up : Bool
  key_down : Bool
  hit_player : Bool
  hit_comp : Bool
  reset_x_left : Bool
  reset_y_left : Bool
  reset_x_right : Bool
  reset_y_right : Bool
deriving Repr, DecidableEq

/-- The ball after the physics part of one loop iteration: `Ball.update`,
then the player-paddle collision check, then the computer-paddle collision
check (in source order), against the freshly moved paddles. -/
def ballAfterPhysics (i : TickInput) (s : GameState) : Ball :=
  collideComp
    (collidePlayer (Ball.update s.ball)
      (Paddle.update s.player_paddle (playerDy i.key_up i.key_down)) i.hit_player)
    (compAI s.ball.rect s.comp_paddle) i.hit_comp

/-- Main-loop off-screen checks: if `ball.rect.right < 0` then
`comp_score += 1`, `player_lives -= 1`, `ball.reset()`; then (on the
possibly reset ball) if `ball.rect.left > SCREEN_WIDTH` then
`player_score += 1`, `comp_lives -= 1`, `ball.reset()`. -/
def scoreStep (i : TickInput) (s : GameState) : GameState :=
  let s1 := if s.ball.rect.right < 0 then
      { s with comp_score := s.comp_score + 1
             , player_lives := s.player_lives - 1
             , ball := Ball.reset i.reset_x_left i.reset_y_left }
    else s
  if s1.ball.rect.left > SCREEN_WIDTH then
    { s1 with player_score := s1.player_score + 1
            , comp_lives := s1.comp_lives - 1
            , ball := Ball.reset i.reset_x_right i.reset_y_right }
  else s1

/-- Main-loop game-over check: if `player_lives ≤ 0` or `comp_lives ≤ 0`,
set `running = False` (the loop then stops iterating). -/
def gameOverCheck (s : GameState) : GameState :=
  if s.player_lives ≤ 0 ∨ s.comp_lives ≤ 0 then { s with running := false } else s

/-- One full iteration of the main loop body (the simulation part: player
input, computer AI, ball update, paddle collisions, off-screen scoring,
game-over check; rendering and the external QUIT event are outside the
core). -/
def tick (i : TickInput) (s : GameState) : GameState :=
  let pr := Paddle.update s.player_paddle (playerDy i.key_up i.key_down)
  let cr := compAI s.ball.rect s.comp_paddle
  let b := ballAfterPhysics i s
  gameOverCheck (scoreStep i { s with player_paddle := pr, comp_paddle := cr, ball := b })

/-- `while running:` — an iteration runs only while `running` is true;
once it is false, simulation stepping ceases and the state is unchanged. -/
def step (i : TickInput) (s : GameState) : GameState :=
  if s.running then tick i s else s

/-- A sequence of loop iterations driven by a list of per-tick inputs. -/
def run (l : List TickInput) (s : GameState) : GameState :=
  l.foldl (fun t i => step i t) s

/-- The state right after the setup section of the source: paddles at
their initial positions, ball created via `Ball.reset` (its constructor
calls `reset`), scores `0`, lives `STARTING_LIVES`, loop running. -/
def initialState (d_x d_y : Bool) : GameState :=
  { player_paddle := { x := 30, y := SCREEN_HEIGHT / 2 - PADDLE_HEIGHT / 2
                     , w := PADDLE_WIDTH, h := PADDLE_HEIGHT }
  , comp_paddle := { x := SCREEN_WIDTH - 30 - PADDLE_WIDTH
                   , y := SCREEN_HEIGHT / 2 - PADDLE_HEIGHT / 2
                   , w := PADDLE_WIDTH, h := PADDLE_HEIGHT }
  , ball := Ball.reset d_x d_y
  , player_score := 0
  , player_lives := STARTING_LIVES
  , comp_score := 0
  , comp_lives := STARTING_LIVES
  , running := true }

/-! ### Helper lemmas -/

theorem scoreStep_paddles (i : TickInput) (s : GameState) :
    (scoreStep i s).player_paddle = s.player_paddle ∧
    (scoreStep i s).comp_paddle = s.comp_paddle ∧
    (scoreStep i s).running = s.running := by
  simp only [scoreStep]
  split_ifs <;> simp

theorem gameOverCheck_paddles (s : GameState) :
    (gameOverCheck s).player_paddle = s.player_paddle ∧
    (gameOverCheck s).comp_paddle = s.comp_paddle ∧
    (gameOverCheck s).ball = s.ball ∧
    (gameOverCheck s).player_score = s.player_score ∧
    (gameOverCheck s).comp_score = s.comp_score ∧
    (gameOverCheck s).player_lives = s.player_lives ∧
    (gameOverCheck s).comp_lives = s.comp_lives := by
  unfold gameOverCheck
  split_ifs <;> simp

theorem tick_player_paddle (i : TickInput) (s : GameState) :
    (tick i s).player_paddle = Paddle.update s.player_paddle (playerDy i.key_up i.key_down) := by
  unfold tick
  rw [(gameOverCheck_paddles _).1, (scoreStep_paddles _ _).1]

theorem tick_comp_paddle (i : TickInput) (s : GameState) :
    (tick i s).comp_paddle = compAI s.ball.rect s.comp_paddle := by
  unfold tick
  rw [(gameOverCheck_paddles _).2.1, (scoreStep_paddles _ _).2.1]

/-! ### Claim theorems -/

/-- C5: for every paddle (height 100) and every tick, after `Paddle.update`
with any displacement `dy`, the paddle's top bound is `≥ 0` and its bottom
bound is `≤ SCREEN_HEIGHT`; the clamped range is never exceeded regardless
of the input displacement. -/
theorem paddle_update_clamped (r : Rect) (dy : Int) (h : r.h = PADDLE_HEIGHT) :
    0 ≤ (Paddle.update r dy).top ∧ (Paddle.update r dy).bottom ≤ SCREEN_HEIGHT := by
  unfold Paddle.update
  simp only [Rect.top, Rect.bottom, SCREEN_HEIGHT, PADDLE_HEIGHT] at *
  split_ifs <;> simp_all

theorem paddle_update_clamped_witness :
    (Rect.mk 30 550 20 100).h = PADDLE_HEIGHT ∧
    (0 ≤ (Paddle.update (Rect.mk 30 550 20 100) 100).top ∧
      (Paddle.update (Rect.mk 30 550 20 100) 100).bottom ≤ SCREEN_HEIGHT) :=
  ⟨by decide, paddle_update_clamped (Rect.mk 30 550 20 100) 100 (by decide)⟩

/-- C6: after every ball reset (and at the initial creation, whose
constructor calls `reset`), the ball's center equals the field center
`(SCREEN_WIDTH / 2, SCREEN_HEIGHT / 2)` and each speed component is `±7`,
the sign of each axis determined independently by its own random draw. -/
theorem ball_reset_spec (d_x d_y : Bool) :
    (Ball.reset d_x d_y).rect.centerx = SCREEN_WIDTH / 2 ∧
    (Ball.reset d_x d_y).rect.centery = SCREEN_HEIGHT / 2 ∧
    (Ball.reset d_x d_y).speed_x = 7 * choiceSign d_x ∧
    (Ball.reset d_x d_y).speed_y = 7 * choiceSign d_y ∧
    ((Ball.reset d_x d_y).speed_x = 7 ∨ (Ball.reset d_x d_y).speed_x = -7) ∧
    ((Ball.reset d_x d_y).speed_y = 7 ∨ (Ball.reset d_x d_y).speed_y = -7) ∧
    (initialState d_x d_y).ball = Ball.reset d_x d_y := by
  cases d_x <;> cases d_y <;> decide

/-- C7: `Ball.update` advances the rect by exactly the velocity vector with
no overshoot correction, and when (after the move) `top ≤ 0` or
`bottom ≥ SCREEN_HEIGHT` the vertical speed is negated exactly once (a
single negation even if both edge conditions hold), otherwise unchanged;
the horizontal speed is untouched. -/
theorem ball_update_bounce (b : Ball) :
    (Ball.update b).rect.x = b.rect.x + b.speed_x ∧
    (Ball.update b).rect.y = b.rect.y + b.speed_y ∧
    (Ball.update b).rect.w = b.rect.w ∧
    (Ball.update b).rect.h = b.rect.h ∧
    (Ball.update b).speed_x = b.speed_x ∧
    (((Ball.update b).rect.top ≤ 0 ∨ (Ball.update b).rect.bottom ≥ SCREEN_HEIGHT) →
      (Ball.update b).speed_y = -b.speed_y) ∧
    (¬ ((Ball.update b).rect.top ≤ 0 ∨ (Ball.update b).rect.bottom ≥ SCREEN_HEIGHT) →
      (Ball.update b).speed_y = b.speed_y) := by
  unfold Ball.update
  simp only [Rect.top, Rect.bottom, SCREEN_HEIGHT]
  split_ifs with hc <;> simp_all

theorem ball_update_bounce_witness :
    ((Ball.update (Ball.mk (Rect.mk 100 5 20 20) 7 (-7))).rect.top ≤ 0 ∨
      (Ball.update (Ball.mk (Rect.mk 100 5 20 20) 7 (-7))).rect.bottom ≥ SCREEN_HEIGHT) ∧
    (Ball.update (Ball.mk (Rect.mk 100 5 20 20) 7 (-7))).speed_y = -(-7) :=
  ⟨by decide, (ball_update_bounce (Ball.mk (Rect.mk 100 5 20 20) 7 (-7))).2.2.2.2.2.1 (by decide)⟩

/-- C9: on every tick the computer paddle is updated by `compAI`, which
compares the ball's vertical center to the paddle's vertical center: if
the ball center is strictly above (smaller `centery`) the paddle is moved
up by `COMP_SPEED`, if strictly below it is moved down by `COMP_SPEED`,
and if exactly equal the paddle does not move that tick. -/
theorem compAI_policy (ballRect comp : Rect) (i : TickInput) (s : GameState) :
    (ballRect.centery < comp.centery →
      compAI ballRect comp = Paddle.update comp (-COMP_SPEED)) ∧
    (comp.centery < ballRect.centery →
      compAI ballRect comp = Paddle.update comp COMP_SPEED) ∧
    (ballRect.centery = comp.centery → compAI ballRect comp = comp) ∧
    (tick i s).comp_paddle = compAI s.ball.rect s.comp_paddle := by
  refine ⟨fun h => ?_, fun h => ?_, fun h => ?_, tick_comp_paddle i s⟩
  · simp only [compAI, if_pos h]
  · simp only [compAI]
    rw [if_neg (by omega), if_pos h]
  · simp only [compAI]
    rw [if_neg (by omega), if_neg (by omega)]

theorem compAI_policy_witness :
    (Rect.mk 100 100 20 20).centery < (Rect.mk 750 250 20 100).centery ∧
    compAI (Rect.mk 100 100 20 20) (Rect.mk 750 250 20 100) =
      Paddle.update (Rect.mk 750 250 20 100) (-COMP_SPEED) :=
  ⟨by decide,
    (compAI_policy (Rect.mk 100 100 20 20) (Rect.mk 750 250 20 100)
      (TickInput.mk false false false false false false false false)
      (initialState false false)).1 (by decide)⟩

/-- C10: when both the up and the down key are held on a tick, the player
displacement is `+PLAYER_SPEED` (the down branch overwrites the up
branch); the per-tick displacement is always exactly one of
`{-PLAYER_SPEED, 0, +PLAYER_SPEED}`, and the tick applies it to the player
paddle through `Paddle.update`. -/
theorem player_input_policy (up down : Bool) (i : TickInput) (s : GameState) :
    (up = true ∧ down = true → playerDy up down = PLAYER_SPEED) ∧
    (playerDy up down = -PLAYER_SPEED ∨ playerDy up down = 0 ∨
      playerDy up down = PLAYER_SPEED) ∧
    (tick i s).player_paddle = Paddle.update s.player_paddle (playerDy i.key_up i.key_down) := by
  refine ⟨fun h => ?_, ?_, tick_player_paddle i s⟩
  · cases up <;> cases down <;> simp_all [playerDy]
  · cases up <;> cases down <;> simp [playerDy]

theorem player_input_policy_witness :
    (true = true ∧ true = true → playerDy true true = PLAYER_SPEED) ∧
    playerDy true true = PLAYER_SPEED :=
  ⟨(player_input_policy true true
      (TickInput.mk false false false false false false false false)
      (initialState false false)).1,
    (player_input_policy true true
      (TickInput.mk false false false false false false false false)
      (initialState false false)).1 (by decide)⟩

/-! ### More helper lemmas -/

theorem scoreStep_spec (i : TickInput) (u : GameState) :
    (u.ball.rect.right < 0 →
      (scoreStep i u).comp_score = u.comp_score + 1 ∧
      (scoreStep i u).player_lives = u.player_lives - 1 ∧
      (scoreStep i u).player_score = u.player_score ∧
      (scoreStep i u).comp_lives = u.comp_lives ∧
      (scoreStep i u).ball = Ball.reset i.reset_x_left i.reset_y_left) ∧
    (0 ≤ u.ball.rect.right ∧ SCREEN_WIDTH < u.ball.rect.left →
      (scoreStep i u).player_score = u.player_score + 1 ∧
      (scoreStep i u).comp_lives = u.comp_lives - 1 ∧
      (scoreStep i u).comp_score = u.comp_score ∧
      (scoreStep i u).player_lives = u.player_lives ∧
      (scoreStep i u).ball = Ball.reset i.reset_x_right i.reset_y_right) ∧
    (0 ≤ u.ball.rect.right ∧ ¬ SCREEN_WIDTH < u.ball.rect.left →
      (scoreStep i u).comp_score = u.comp_score ∧
      (scoreStep i u).player_score = u.player_score ∧
      (scoreStep i u).player_lives = u.player_lives ∧
      (scoreStep i u).comp_lives = u.comp_lives ∧
      (scoreStep i u).ball = u.ball) := by
  simp only [scoreStep]
  split_ifs <;>
    refine ⟨fun hA => ?_, fun hB => ?_, fun hC => ?_⟩ <;>
    simp_all [Ball.reset, Rect.left, Rect.right, SCREEN_WIDTH, BALL_SIZE] <;>
    omega

theorem choiceSign_cases (c : Bool) : choiceSign c = 1 ∨ choiceSign c = -1 := by
  cases c <;> simp [choiceSign]

theorem update_speed_x (b : Ball) : (Ball.update b).speed_x = b.speed_x := by
  simp only [Ball.update]
  split_ifs <;> rfl

theorem collidePlayer_speed_x (b : Ball) (pr : Rect) (c : Bool) :
    (collidePlayer b pr c).speed_x = b.speed_x ∨
    (collidePlayer b pr c).speed_x = -b.speed_x := by
  unfold collidePlayer
  split_ifs <;> simp

theorem collideComp_speed_x (b : Ball) (cr : Rect) (c : Bool) :
    (collideComp b cr c).speed_x = b.speed_x ∨
    (collideComp b cr c).speed_x = -b.speed_x := by
  unfold collideComp
  split_ifs <;> simp

theorem scoreStep_ball (i : TickInput) (u : GameState) :
    (scoreStep i u).ball = u.ball ∨
    (scoreStep i u).ball = Ball.reset i.reset_x_left i.reset_y_left ∨
    (scoreStep i u).ball = Ball.reset i.reset_x_right i.reset_y_right := by
  simp only [scoreStep]
  split_ifs <;> simp

theorem reset_speed_x_cases (d_x d_y : Bool) :
    (Ball.reset d_x d_y).speed_x = 7 ∨ (Ball.reset d_x d_y).speed_x = -7 := by
  cases d_x <;> simp [Ball.reset, choiceSign]

theorem tick_speed_x (i : TickInput) (s : GameState)
    (h : s.ball.speed_x = 7 ∨ s.ball.speed_x = -7) :
    (tick i s).ball.speed_x = 7 ∨ (tick i s).ball.speed_x = -7 := by
  have h0 := update_speed_x s.ball
  have h1 := collidePlayer_speed_x (Ball.update s.ball)
    (Paddle.update s.player_paddle (playerDy i.key_up i.key_down)) i.hit_player
  have h2 := collideComp_speed_x
    (collidePlayer (Ball.update s.ball)
      (Paddle.update s.player_paddle (playerDy i.key_up i.key_down)) i.hit_player)
    (compAI s.ball.rect s.comp_paddle) i.hit_comp
  have hb : (ballAfterPhysics i s).speed_x = 7 ∨ (ballAfterPhysics i s).speed_x = -7 := by
    unfold ballAfterPhysics
    rcases h1 with h1 | h1 <;> rcases h2 with h2 | h2 <;> rcases h with h | h <;> omega
  have hsb := scoreStep_ball i
    { s with
      player_paddle := Paddle.update s.player_paddle (playerDy i.key_up i.key_down)
      comp_paddle := compAI s.ball.rect s.comp_paddle
      ball := ballAfterPhysics i s }
  have hg := (gameOverCheck_paddles (scoreStep i
    { s with
      player_paddle := Paddle.update s.player_paddle (playerDy i.key_up i.key_down)
      comp_paddle := compAI s.ball.rect s.comp_paddle
      ball := ballAfterPhysics i s })).2.2.1
  simp only [tick]
  rw [hg]
  rcases hsb with hsb | hsb | hsb <;> rw [hsb]
  · exact hb
  · exact reset_speed_x_cases i.reset_x_left i.reset_y_left
  · exact reset_speed_x_cases i.reset_x_right i.reset_y_right

theorem step_speed_x (i : TickInput) (s : GameState)
    (h : s.ball.speed_x = 7 ∨ s.ball.speed_x = -7) :
    (step i s).ball.speed_x = 7 ∨ (step i s).ball.speed_x = -7 := by
  unfold step
  split_ifs
  · exact tick_speed_x i s h
  · exact h

theorem run_speed_x (l : List TickInput) (s : GameState)
    (h : s.ball.speed_x = 7 ∨ s.ball.speed_x = -7) :
    (run l s).ball.speed_x = 7 ∨ (run l s).ball.speed_x = -7 := by
  induction l generalizing s with
  | nil => exact h
  | cons i l ih =>
    simp only [run, List.foldl_cons]
    exact ih (step i s) (step_speed_x i s h)

theorem tick_mono (i : TickInput) (s : GameState) :
    s.player_score ≤ (tick i s).player_score ∧
    s.comp_score ≤ (tick i s).comp_score ∧
    (tick i s).player_lives ≤ s.player_lives ∧
    (tick i s).comp_lives ≤ s.comp_lives := by
  simp only [tick, scoreStep, gameOverCheck]
  split_ifs <;> simp

theorem step_mono (i : TickInput) (s : GameState) :
    s.player_score ≤ (step i s).player_score ∧
    s.comp_score ≤ (step i s).comp_score ∧
    (step i s).player_lives ≤ s.player_lives ∧
    (step i s).comp_lives ≤ s.comp_lives := by
  unfold step
  split_ifs
  · exact tick_mono i s
  · exact ⟨le_refl _, le_refl _, le_refl _, le_refl _⟩

theorem run_mono (l : List TickInput) (s : GameState) :
    s.player_score ≤ (run l s).player_score ∧
    s.comp_score ≤ (run l s).comp_score ∧
    (run l s).player_lives ≤ s.player_lives ∧
    (run l s).comp_lives ≤ s.comp_lives := by
  induction l generalizing s with
  | nil => exact ⟨le_refl _, le_refl _, le_refl _, le_refl _⟩
  | cons i l ih =>
    have h1 := step_mono i s
    have h2 := ih (step i s)
    simp only [run, List.foldl_cons]
    exact ⟨le_trans h1.1 h2.1, le_trans h1.2.1 h2.2.1,
      le_trans h2.2.2.1 h1.2.2.1, le_trans h2.2.2.2 h1.2.2.2⟩

theorem run_halted (l : List TickInput) (s : GameState) (h : s.running = false) :
    run l s = s := by
  induction l with
  | nil => rfl
  | cons i l ih =>
    simp only [run, List.foldl_cons]
    rw [show step i s = s from by simp [step, h]]
    exact ih

/-! ### Concrete states used by witnesses and counterexamples -/

/-- A tick with no keys held and all random draws `false`. -/
def quietInput : TickInput :=
  { key_up := false, key_down := false, hit_player := false, hit_comp := false
  , reset_x_left := false, reset_y_left := false, reset_x_right := false, reset_y_right := false }

/-- A tick holding the up key, with all random draws `true`. -/
def trainInput : TickInput :=
  { key_up := true, key_down := false, hit_player := true, hit_comp := true
  , reset_x_left := true, reset_y_left := true, reset_x_right := true, reset_y_right := true }

/-- A state whose ball has fully exited the left edge after this tick's move. -/
def exitState : GameState :=
  { player_paddle := { x := 30, y := 250, w := 20, h := 100 }
  , comp_paddle := { x := 750, y := 250, w := 20, h := 100 }
  , ball := { rect := { x := -30, y := 300, w := 20, h := 20 }, speed_x := -7, speed_y := 7 }
  , player_score := 0, player_lives := 3, comp_score := 0, comp_lives := 3
  , running := true }

/-- A ball about to hit the player paddle while moving left. -/
def hitBall : Ball :=
  { rect := { x := 40, y := 280, w := 20, h := 20 }, speed_x := -7, speed_y := 7 }

/-- The player paddle's initial rect. -/
def playerRect0 : Rect := { x := 30, y := 250, w := 20, h := 100 }

/-- A halted state (the main loop has already stopped). -/
def haltState : GameState :=
  { player_paddle := { x := 30, y := 250, w := 20, h := 100 }
  , comp_paddle := { x := 750, y := 250, w := 20, h := 100 }
  , ball := { rect := { x := 390, y := 290, w := 20, h := 20 }, speed_x := 7, speed_y := 7 }
  , player_score := 3, player_lives := 0, comp_score := 1, comp_lives := 3
  , running := false }

/-! ### Remaining claim theorems -/

/-- C4: whenever the ball's bounds intersect the player paddle's bounds
while the ball moves left, the response negates the horizontal speed (the
result is positive, away from the paddle just hit) and changes the vertical
speed by exactly `+1` or `-1` depending on the random draw; symmetrically
for the computer paddle when the ball moves right (result negative); and
within a tick the player-paddle check is processed before the
computer-paddle check. -/
theorem paddle_collision_response (b : Ball) (pr cr : Rect) (cp cc : Bool)
    (i : TickInput) (s : GameState) :
    (b.rect.colliderect pr ∧ b.speed_x < 0 →
      (collidePlayer b pr cp).speed_x = -b.speed_x ∧
      0 < (collidePlayer b pr cp).speed_x ∧
      ((collidePlayer b pr cp).speed_y = b.speed_y + 1 ∨
        (collidePlayer b pr cp).speed_y = b.speed_y - 1)) ∧
    (b.rect.colliderect cr ∧ 0 < b.speed_x →
      (collideComp b cr cc).speed_x = -b.speed_x ∧
      (collideComp b cr cc).speed_x < 0 ∧
      ((collideComp b cr cc).speed_y = b.speed_y + 1 ∨
        (collideComp b cr cc).speed_y = b.speed_y - 1)) ∧
    ballAfterPhysics i s =
      collideComp
        (collidePlayer (Ball.update s.ball)
          (Paddle.update s.player_paddle (playerDy i.key_up i.key_down)) i.hit_player)
        (compAI s.ball.rect s.comp_paddle) i.hit_comp := by
  refine ⟨fun h => ?_, fun h => ?_, rfl⟩
  · rcases h with ⟨hcol, hx⟩
    unfold collidePlayer
    rw [if_pos ⟨hcol, hx⟩]
    have hcs := choiceSign_cases cp
    refine ⟨rfl, show (0 : Int) < -b.speed_x from by omega, ?_⟩
    show b.speed_y + choiceSign cp = b.speed_y + 1 ∨
      b.speed_y + choiceSign cp = b.speed_y - 1
    omega
  · rcases h with ⟨hcol, hx⟩
    unfold collideComp
    rw [if_pos ⟨hcol, hx⟩]
    have hcs := choiceSign_cases cc
    refine ⟨rfl, show -b.speed_x < (0 : Int) from by omega, ?_⟩
    show b.speed_y + choiceSign cc = b.speed_y + 1 ∨
      b.speed_y + choiceSign cc = b.speed_y - 1
    omega

theorem paddle_collision_response_witness :
    (hitBall.rect.colliderect playerRect0 ∧ hitBall.speed_x < 0) ∧
    ((collidePlayer hitBall playerRect0 true).speed_x = -hitBall.speed_x ∧
      0 < (collidePlayer hitBall playerRect0 true).speed_x ∧
      ((collidePlayer hitBall playerRect0 true).speed_y = hitBall.speed_y + 1 ∨
        (collidePlayer hitBall playerRect0 true).speed_y = hitBall.speed_y - 1)) :=
  ⟨by decide,
    (paddle_collision_response hitBall playerRect0 playerRect0 true true
      quietInput haltState).1 (by decide)⟩

/-- C1: on any tick, if the ball (after physics) has fully exited the left
edge (`right < 0`), the computer score goes up by exactly 1, player lives
down by exactly 1, the other two counters are unchanged, and the ball is
reset; if it has fully exited the right edge (`left > SCREEN_WIDTH`, with
`right ≥ 0`), the player score goes up by exactly 1, computer lives down by
exactly 1, the other two counters unchanged, and the ball is reset; the two
exit conditions can never hold together (for a ball of nonnegative width);
and when neither holds, no counter changes and the ball is not reset. -/
theorem offscreen_scoring (i : TickInput) (s : GameState) :
    ((ballAfterPhysics i s).rect.right < 0 →
      (tick i s).comp_score = s.comp_score + 1 ∧
      (tick i s).player_lives = s.player_lives - 1 ∧
      (tick i s).player_score = s.player_score ∧
      (tick i s).comp_lives = s.comp_lives ∧
      (tick i s).ball = Ball.reset i.reset_x_left i.reset_y_left) ∧
    (0 ≤ (ballAfterPhysics i s).rect.right ∧
        SCREEN_WIDTH < (ballAfterPhysics i s).rect.left →
      (tick i s).player_score = s.player_score + 1 ∧
      (tick i s).comp_lives = s.comp_lives - 1 ∧
      (tick i s).comp_score = s.comp_score ∧
      (tick i s).player_lives = s.player_lives ∧
      (tick i s).ball = Ball.reset i.reset_x_right i.reset_y_right) ∧
    (0 ≤ (ballAfterPhysics i s).rect.w →
      ¬ ((ballAfterPhysics i s).rect.right < 0 ∧
          SCREEN_WIDTH < (ballAfterPhysics i s).rect.left)) ∧
    (0 ≤ (ballAfterPhysics i s).rect.right ∧
        ¬ SCREEN_WIDTH < (ballAfterPhysics i s).rect.left →
      (tick i s).comp_score = s.comp_score ∧
      (tick i s).player_score = s.player_score ∧
      (tick i s).player_lives = s.player_lives ∧
      (tick i s).comp_lives = s.comp_lives ∧
      (tick i s).ball = ballAfterPhysics i s) := by
  have hs := scoreStep_spec i
    { s with
      player_paddle := Paddle.update s.player_paddle (playerDy i.key_up i.key_down)
      comp_paddle := compAI s.ball.rect s.comp_paddle
      ball := ballAfterPhysics i s }
  obtain ⟨hg1, hg2, hg3, hg4, hg5, hg6, hg7⟩ := gameOverCheck_paddles (scoreStep i
    { s with
      player_paddle := Paddle.update s.player_paddle (playerDy i.key_up i.key_down)
      comp_paddle := compAI s.ball.rect s.comp_paddle
      ball := ballAfterPhysics i s })
  simp only [tick]
  rw [hg3, hg4, hg5, hg6, hg7]
  refine ⟨fun hA => hs.1 hA, fun hB => hs.2.1 hB, fun hw hc => ?_, fun hC => hs.2.2 hC⟩
  simp only [Rect.right, Rect.left, SCREEN_WIDTH] at hc
  omega

theorem offscreen_scoring_witness :
    (ballAfterPhysics quietInput exitState).rect.right < 0 ∧
    ((tick quietInput exitState).comp_score = exitState.comp_score + 1 ∧
      (tick quietInput exitState).player_lives = exitState.player_lives - 1 ∧
      (tick quietInput exitState).player_score = exitState.player_score ∧
      (tick quietInput exitState).comp_lives = exitState.comp_lives ∧
      (tick quietInput exitState).ball =
        Ball.reset quietInput.reset_x_left quietInput.reset_y_left) :=
  ⟨by decide, (offscreen_scoring quietInput exitState).1 (by decide)⟩

/-- C8: over any tick the scores never decrease and the lives never
increase; the lives start at `STARTING_LIVES = 3`, the scores at `0`; and
along any run of ticks from the initial state both scores stay
non-negative. -/
theorem score_lives_monotone (i : TickInput) (s : GameState)
    (l : List TickInput) (d_x d_y : Bool) :
    s.player_score ≤ (tick i s).player_score ∧
    s.comp_score ≤ (tick i s).comp_score ∧
    (tick i s).player_lives ≤ s.player_lives ∧
    (tick i s).comp_lives ≤ s.comp_lives ∧
    (initialState d_x d_y).player_lives = STARTING_LIVES ∧
    (initialState d_x d_y).comp_lives = STARTING_LIVES ∧
    (initialState d_x d_y).player_score = 0 ∧
    (initialState d_x d_y).comp_score = 0 ∧
    0 ≤ (run l (initialState d_x d_y)).player_score ∧
    0 ≤ (run l (initialState d_x d_y)).comp_score := by
  have h := tick_mono i s
  have hr := run_mono l (initialState d_x d_y)
  exact ⟨h.1, h.2.1, h.2.2.1, h.2.2.2, rfl, rfl, rfl, rfl, hr.1, hr.2.1⟩

/-- C2: once the loop flag is off, a step (and any run of steps) leaves the
whole state unchanged — in particular no score or lives counter ever
changes again; and for a running state, the tick ends with the flag off if
and only if after that tick `player_lives ≤ 0` or `comp_lives ≤ 0`. -/
theorem game_over_iff (i : TickInput) (l : List TickInput) (s : GameState) :
    (s.running = false → step i s = s ∧ run l s = s) ∧
    (s.running = true →
      ((tick i s).running = false ↔
        ((tick i s).player_lives ≤ 0 ∨ (tick i s).comp_lives ≤ 0))) := by
  constructor
  · intro h
    exact ⟨by simp [step, h], run_halted l s h⟩
  · intro h
    have ht : (scoreStep i
        { s with
          player_paddle := Paddle.update s.player_paddle (playerDy i.key_up i.key_down)
          comp_paddle := compAI s.ball.rect s.comp_paddle
          ball := ballAfterPhysics i s }).running = true := by
      rw [(scoreStep_paddles i _).2.2]
      exact h
    simp only [tick]
    revert ht
    generalize scoreStep i _ = t
    intro ht
    unfold gameOverCheck
    split_ifs with hc
    · exact ⟨fun _ => hc, fun _ => rfl⟩
    · simp [ht, hc]

theorem game_over_iff_witness :
    haltState.running = false ∧
    (step quietInput haltState = haltState ∧ run [] haltState = haltState) :=
  ⟨rfl, (game_over_iff quietInput [] haltState).1 rfl⟩

set_option maxRecDepth 4000 in
/-- C3 counterexample: from the initial state (velocity `(-7, -7)`), after
49 ticks holding the up key the ball collides with the player paddle and
the random perturbation sets `speed_y = 8`, so a reachable state violates
`|velocity.y| = 7`, and the paddle-collision operation does not preserve
the per-axis magnitude. -/
theorem speed_magnitude_counterexample :
    (initialState false false).ball.speed_x = -7 ∧
    (initialState false false).ball.speed_y = -7 ∧
    (run (List.replicate 49 trainInput) (initialState false false)).ball.speed_y = 8 := by
  refine ⟨rfl, rfl, ?_⟩
  decide

/-- C3 amended: in every reachable state `|velocity.x| = 7` (preserved by
every tick and by every reset), and the ball step / wall bounce preserve
both per-axis magnitudes (the bounce only flips the vertical sign) while a
reset restores `|velocity.y| = 7`; but the vertical magnitude is not
invariant across paddle collisions. -/
theorem speed_x_magnitude_invariant (i : TickInput) (s : GameState)
    (l : List TickInput) (d_x d_y : Bool)
    (h : s.ball.speed_x = 7 ∨ s.ball.speed_x = -7) :
    ((tick i s).ball.speed_x = 7 ∨ (tick i s).ball.speed_x = -7) ∧
    ((run l (initialState d_x d_y)).ball.speed_x = 7 ∨
      (run l (initialState d_x d_y)).ball.speed_x = -7) ∧
    ((Ball.reset d_x d_y).speed_x = 7 ∨ (Ball.reset d_x d_y).speed_x = -7) ∧
    ((Ball.reset d_x d_y).speed_y = 7 ∨ (Ball.reset d_x d_y).speed_y = -7) ∧
    (Ball.update s.ball).speed_x = s.ball.speed_x ∧
    ((Ball.update s.ball).speed_y = s.ball.speed_y ∨
      (Ball.update s.ball).speed_y = -s.ball.speed_y) := by
  refine ⟨tick_speed_x i s h, run_speed_x l _ (reset_speed_x_cases d_x d_y),
    reset_speed_x_cases d_x d_y, ?_, update_speed_x s.ball, ?_⟩
  · cases d_y <;> simp [Ball.reset, choiceSign]
  · simp only [Ball.update]
    split_ifs <;> simp

theorem speed_x_magnitude_invariant_witness :
    ((initialState false false).ball.speed_x = 7 ∨
      (initialState false false).ball.speed_x = -7) ∧
    ((tick quietInput (initialState false false)).ball.speed_x = 7 ∨
      (tick quietInput (initialState false false)).ball.speed_x = -7) :=
  ⟨by decide,
    (speed_x_magnitude_invariant quietInput (initialState false false) [] false false
      (by decide)).1⟩

end Pong
